import Mathlib

/-!
Shallow embedding of the astronaut career-matcher web application
(questionnaire page, upload page, results page, face-swap component),
with theorems checking the natural-language specification against it.

Each definition is translated from the corresponding TypeScript source:
  * `FormData`, `buildUserProfile`, `onSubmit`, `nextStep`, `prevStep`,
    `skipSelfie` — the questionnaire page (7-step form).
  * `resultsLoad`, `biographyStep`, `timelineStep`,
    `generateUserCareerSuggestions`, `processFaceSwapResults`,
    `nextSlide`, `prevSlide` — the results page.
  * `handleImageUpload`, `processFaceSwapComponent` — the standalone
    FaceSwap component.
HTTP calls are modelled by passing the outcome of the fetch explicitly
(`Except Unit response`); browser effects (toasts, sessionStorage writes,
navigation) are collected in effect records.
-/

namespace Astro

/-- A toast notification shown to the user (react-hot-toast). -/
inductive Toast where
  | error (msg : String)
  | success (msg : String)
deriving DecidableEq, Repr

/-- The questionnaire's form answers. `selfie` is `none` when the optional
selfie step was skipped; a captured-but-empty value is `some ""`. -/
structure FormData where
  firstName : String
  nationality : String
  education : String
  languages : String
  interests : String
  hobbies : String
  selfie : Option String
deriving DecidableEq, Repr

/-- One entry of the profile's education list. -/
structure EducationEntry where
  institution : String
deriving DecidableEq, Repr

/-- The user profile sent to the similarity-search endpoint. -/
structure UserProfile where
  name : String
  nationality : String
  education : List EducationEntry
  occupations : List String
  interests : List String
  languages : List String
  selfie : Option String
deriving DecidableEq, Repr

/-- JS whitespace characters (the ones occurring in this application's
inputs). -/
def jsWhitespace (c : Char) : Bool :=
  c == ' ' || c == '\t' || c == '\n' || c == '\r'

/-- JS `s.trim()`: strip leading and trailing whitespace. -/
def jsTrim (s : String) : String :=
  String.mk (((s.data.dropWhile jsWhitespace).reverse.dropWhile jsWhitespace).reverse)

/-- Accumulator pass of JS `s.split(',')` over the characters. -/
def splitCommaAux : List Char → List Char → List (List Char)
  | [], acc => [acc.reverse]
  | c :: cs, acc =>
    if c == ',' then acc.reverse :: splitCommaAux cs []
    else splitCommaAux cs (c :: acc)

/-- JS `s.split(',')`: split at every comma, keeping empty pieces. -/
def jsSplitComma (s : String) : List String :=
  (splitCommaAux s.data []).map String.mk

/-- JS `s.split(',').map(item => item.trim()).filter(item => item)`:
split on every comma, trim whitespace, drop empty pieces. -/
def splitTrimFilter (s : String) : List String :=
  ((jsSplitComma s).map jsTrim).filter (fun t => t != "")

/-- JS `x || null` on the optional selfie value: empty string and
undefined both fall through to `null`. -/
def jsOrNull (s : Option String) : Option String :=
  match s with
  | none => none
  | some v => if v = "" then none else some v

/-- The profile transformation in the questionnaire's `onSubmit`. -/
def buildUserProfile (d : FormData) : UserProfile :=
  { name := d.firstName
    nationality := d.nationality
    education := [{ institution := d.education }]
    occupations := splitTrimFilter d.interests
    interests := splitTrimFilter d.hobbies
    languages := splitTrimFilter d.languages
    selfie := jsOrNull d.selfie }

/-- The JSON body posted to `/api/similar_astronauts`. -/
structure MatchRequest where
  user_profile : UserProfile
  top_k : Nat
deriving DecidableEq, Repr

def buildMatchRequest (d : FormData) : MatchRequest :=
  { user_profile := buildUserProfile d, top_k := 3 }

/-- An HTTP response as the submit handler observes it: the `ok` flag and
the (opaque) JSON text of the body. -/
structure ApiResponse where
  ok : Bool
  body : String
deriving DecidableEq, Repr

/-- A value written to the browser session store: either a raw JSON body
received from the API or a serialized user profile. -/
inductive SVal where
  | json (s : String)
  | profileVal (p : UserProfile)
deriving DecidableEq, Repr

/-- The observable effects of one run of the questionnaire submit handler. -/
structure SubmitEffects where
  requestSent : Option MatchRequest
  storageWrites : List (String × SVal)
  navigatedTo : Option String
  toasts : List Toast
  isSubmitting : Bool
deriving DecidableEq, Repr

def totalSteps : Nat := 7

def submitErrorMsg : String := "Failed to process your questionnaire. Please try again."

/-- The questionnaire's `onSubmit`: early return below step
`totalSteps - 1`; otherwise build the profile, post it, and on a
successful (`ok`) response store the results and profile in the session
store and navigate to `/results`; on a thrown fetch or a non-ok response
show an error toast. `isSubmitting` is reset in the `finally` block. -/
def onSubmit (currentStep : Nat) (d : FormData)
    (fetch : Except Unit ApiResponse) : SubmitEffects :=
  if currentStep < totalSteps - 1 then
    { requestSent := none, storageWrites := [], navigatedTo := none,
      toasts := [], isSubmitting := false }
  else
    match fetch with
    | .error _ =>
      { requestSent := some (buildMatchRequest d), storageWrites := [],
        navigatedTo := none, toasts := [Toast.error submitErrorMsg],
        isSubmitting := false }
    | .ok resp =>
      if resp.ok then
        { requestSent := some (buildMatchRequest d),
          storageWrites :=
            [("astronautMatches", SVal.json resp.body),
             ("userProfile", SVal.profileVal (buildUserProfile d))],
          navigatedTo := some ("/results"),
          toasts := [], isSubmitting := false }
      else
        { requestSent := some (buildMatchRequest d), storageWrites := [],
          navigatedTo := none, toasts := [Toast.error submitErrorMsg],
          isSubmitting := false }

/-- A fetch outcome counts as failed when the promise rejected or the
response status was not ok. -/
def fetchFailed : Except Unit ApiResponse → Bool
  | .error _ => true
  | .ok r => !r.ok

/-- Validation of the current step's required field in `nextStep`:
JS `!!currentData.field?.trim()` — non-blank after trimming. Step 7
(the optional selfie) is always valid, as is the switch's default. -/
def stepFieldValid (step : Nat) (d : FormData) : Bool :=
  match step with
  | 1 => jsTrim d.firstName != ""
  | 2 => jsTrim d.nationality != ""
  | 3 => jsTrim d.education != ""
  | 4 => jsTrim d.languages != ""
  | 5 => jsTrim d.interests != ""
  | 6 => jsTrim d.hobbies != ""
  | _ => true

def requiredFieldMsg : String := "Please fill in the required field before continuing"

/-- The questionnaire's `nextStep`: below `totalSteps`, advance by one
when the current step's field validates, otherwise show an error toast;
at or above `totalSteps`, do nothing (and show nothing). -/
def nextStep (step : Nat) (d : FormData) : Nat × List Toast :=
  if step < totalSteps then
    if stepFieldValid step d then (step + 1, [])
    else (step, [Toast.error requiredFieldMsg])
  else (step, [])

/-- The questionnaire's `prevStep`: decrement only above step 1. -/
def prevStep (step : Nat) : Nat :=
  if 1 < step then step - 1 else step

/-- The step-7 "Skip for now" button: `setCurrentStep(currentStep + 1)`
with no upper-bound guard. -/
def skipSelfie (step : Nat) : Nat := step + 1

/-- A concrete completed questionnaire, used by witnesses. -/
def sampleForm : FormData :=
  { firstName := "Ada", nationality := "Other", education := "PhD",
    languages := "English, French", interests := "Engineering, ,Physics",
    hobbies := "Chess", selfie := none }

/-- A concrete successful API response, used by witnesses. -/
def sampleOkResponse : ApiResponse := { ok := true, body := "RESULTJSON" }

/-! ## Results page -/

/-- An astronaut match as the results page holds it; only the fields the
embedded operations touch are kept. Optional fields model the optional
TypeScript interface fields. -/
structure Astronaut where
  profileName : Option String
  name : Option String
  nationality : Option String
  missionCount : Option Nat
  missionDuration : Option Nat
  role : Option String
  biography : Option String
  careerTimeline : Option (List String)
deriving DecidableEq, Repr

/-- Outcome of the results page's mount-time read of the session store. -/
inductive LoadOutcome where
  | loaded (matchesBody : String) (profile : UserProfile)
  | noResults
  | parseError
deriving DecidableEq, Repr

/-- JS `Object.entries`-style lookup in the session store. -/
def storeLookup (key : String) (store : List (String × SVal)) : Option SVal :=
  (store.find? (fun kv => kv.1 == key)).map (fun kv => kv.2)

/-- The results page's mount effect: read `astronautMatches` and
`userProfile` from the session store; when both are present and parse,
the page proceeds with them; when either is missing it renders the
"No Results Found" screen; a value of the wrong shape models a JSON
parse failure (caught, error toast). -/
def resultsLoad (store : List (String × SVal)) : LoadOutcome :=
  match storeLookup ("astronautMatches") store, storeLookup ("userProfile") store with
  | some (SVal.json b), some (SVal.profileVal p) => .loaded b p
  | some _, some _ => .parseError
  | _, _ => .noResults

/-- Fallback biography used when `/api/generate_biography` answers non-ok. -/
def fallbackBiography (a : Astronaut) : String :=
  "A distinguished astronaut from " ++ a.nationality.getD ("unknown nationality")
    ++ " with " ++ toString (a.missionCount.getD 0) ++ " space missions and "
    ++ toString (a.missionDuration.getD 0) ++ " days in space."

/-- Fallback biography used when the biography fetch throws. -/
def thrownBiography : String :=
  "An accomplished astronaut with extensive space experience."

/-- Response of `/api/generate_biography`. -/
structure BioResponse where
  ok : Bool
  biography : String
deriving DecidableEq, Repr

/-- One iteration of `generateAstronautBiographies`: assign the returned
biography on success, a computed fallback on a non-ok response, and a
fixed fallback when the fetch throws; no toast in any branch. -/
def biographyStep (a : Astronaut) (api : Except Unit BioResponse) :
    Astronaut × List Toast :=
  match api with
  | .ok r =>
    if r.ok then ({ a with biography := some r.biography }, [])
    else ({ a with biography := some (fallbackBiography a) }, [])
  | .error _ => ({ a with biography := some thrownBiography }, [])

/-- Response of `/api/generate_career_timeline`; `timeline = none` models
a body whose `timeline` field is not an array. -/
structure TimelineResponse where
  ok : Bool
  timeline : Option (List String)
deriving DecidableEq, Repr

/-- The fixed fallback strings used to pad a short timeline, and the
whole-timeline fallback on a non-ok response. -/
def timelineFallbacks : List String :=
  ["Selected for astronaut training program",
   "Completed intensive space mission preparation",
   "First space mission launch",
   "Advanced to senior astronaut role"]

/-- The fixed timeline assigned when the timeline fetch throws. -/
def thrownTimeline : List String :=
  ["Astronaut training", "First mission", "Advanced missions", "Senior role"]

/-- The `while (normalizedTimeline.length < 4)` padding loop, with fuel
(the loop runs at most 4 times since the list starts at length at most 4
and grows by one each iteration). -/
def padTimeline : Nat → List String → List String
  | 0, acc => acc
  | Nat.succ n, acc =>
    if acc.length < 4 then padTimeline n (acc ++ [timelineFallbacks.getD acc.length ("")])
    else acc

/-- Normalization of a successful timeline response: keep an array body
(else the empty list), drop falsy entries, truncate to 4, pad to 4. -/
def normalizeTimeline (data : Option (List String)) : List String :=
  let base := (data.getD []).filter (fun s => s != "")
  padTimeline 4 (base.take 4)

/-- One iteration of `generateCareerTimelines`; no toast in any branch. -/
def timelineStep (a : Astronaut) (api : Except Unit TimelineResponse) :
    Astronaut × List Toast :=
  match api with
  | .ok r =>
    if r.ok then ({ a with careerTimeline := some (normalizeTimeline r.timeline) }, [])
    else ({ a with careerTimeline := some timelineFallbacks }, [])
  | .error _ => ({ a with careerTimeline := some thrownTimeline }, [])

/-- `generateCareerTimelines` over the match list, each astronaut paired
with the outcome of its timeline fetch. -/
def generateCareerTimelines
    (xs : List (Astronaut × Except Unit TimelineResponse)) : List Astronaut :=
  xs.map (fun p => (timelineStep p.1 p.2).1)

/-- The four default career suggestions always appended. -/
def defaultSuggestions : List String :=
  ["Join local astronomy or space clubs",
   "Volunteer for STEM education programs",
   "Start regular physical fitness routine",
   "Learn about space industry careers"]

/-- The fallback suggestions of the (unreachable) padding loop. -/
def suggestionFallbacks : List String :=
  ["Build technical skills in STEM fields",
   "Develop leadership and teamwork abilities",
   "Gain experience in high-pressure environments",
   "Pursue advanced education opportunities"]

/-- The `while (finalSuggestions.length < 4)` loop of
`generateUserCareerSuggestions`, with fuel. -/
def padSuggestions : Nat → List String → List String
  | 0, acc => acc
  | Nat.succ n, acc =>
    if acc.length < 4 then
      padSuggestions n (acc ++ [suggestionFallbacks.getD (acc.length % 4) ("")])
    else acc

/-- Interest-specific suggestion pairs, as pushed by the source. -/
def engineeringPart (interests : List String) : List String :=
  if interests.contains ("Engineering") || interests.contains ("engineering") then
    ["Join engineering professional organizations",
     "Complete aerospace engineering projects"]
  else []

def medicinePart (interests : List String) : List String :=
  if interests.contains ("Medicine") || interests.contains ("medicine") then
    ["Volunteer in emergency medical services",
     "Study human physiology and space health"]
  else []

def physicsPart (interests : List String) : List String :=
  if interests.contains ("Physics") || interests.contains ("physics") then
    ["Participate in physics research projects",
     "Attend space science conferences"]
  else []

/-- `generateUserCareerSuggestions`: push interest-specific pairs, append
the four defaults, truncate to 4, pad to 4 (the pad never fires). -/
def generateUserCareerSuggestions (p : UserProfile) : List String :=
  let s1 := engineeringPart p.interests
  let s2 := s1 ++ medicinePart p.interests
  let s3 := s2 ++ physicsPart p.interests
  let s4 := s3 ++ defaultSuggestions
  padSuggestions 4 (s4.take 4)

/-! ## Slide deck navigation -/

/-- The three slides of the results experience. -/
inductive SlideTag where
  | matchesSlide
  | spiderSlide
  | journeySlide
deriving DecidableEq, Repr

def slides : List SlideTag := [.matchesSlide, .spiderSlide, .journeySlide]

/-- `nextSlide`: advance only when below the last slide. -/
def nextSlide (i : Nat) : Nat :=
  if i < slides.length - 1 then i + 1 else i

/-- `prevSlide`: go back only when above 0. -/
def prevSlide (i : Nat) : Nat :=
  if 0 < i then i - 1 else i

/-- The Start Over button on the last slide. -/
def startOver : Nat := 0

/-! ## Face swap -/

/-- The request body of `/api/process_face_swap`. -/
structure FaceSwapCall where
  selfie : String
deriving DecidableEq, Repr

/-- Response of `/api/process_face_swap`; `astronaut_image = none` models
a body without that field. -/
structure FaceSwapResponse where
  ok : Bool
  astronaut_image : Option String
deriving DecidableEq, Repr

/-- The results page's `processFaceSwap`: falsy selfie returns null with
no request; otherwise one request carrying the selfie is issued and the
response's `astronaut_image` is the result (null on non-ok or thrown). -/
def processFaceSwapResults (selfieData : String)
    (api : Except Unit FaceSwapResponse) : Option String × List FaceSwapCall :=
  if selfieData = "" then (none, [])
  else
    match api with
    | .ok r =>
      if r.ok then (r.astronaut_image, [{ selfie := selfieData }])
      else (none, [{ selfie := selfieData }])
    | .error _ => (none, [{ selfie := selfieData }])

/-! ## Standalone FaceSwap component -/

/-- A file chosen in the component's file input. -/
structure ImgFile where
  mimeType : String
  size : Nat
  content : String
deriving DecidableEq, Repr

/-- The component's image state. -/
structure FSState where
  uploadedImage : Option String
  processedImage : Option String
deriving DecidableEq, Repr

/-- `handleImageUpload`: reject non-image MIME types and files over
5 MB with an error toast and no state change; otherwise read the file
into `uploadedImage`. -/
def handleImageUpload (file : Option ImgFile) (st : FSState) :
    FSState × List Toast :=
  match file with
  | none => (st, [])
  | some f =>
    if f.mimeType.startsWith ("image/") = false then
      (st, [Toast.error ("Please upload an image file")])
    else if 5 * 1024 * 1024 < f.size then
      (st, [Toast.error ("Image size must be less than 5MB")])
    else
      ({ st with uploadedImage := some f.content }, [])

/-- The component's `processFaceSwap`: a demo stub. With no uploaded
image it returns immediately; otherwise, after a simulated delay, it uses
the uploaded image itself as the processed image — no HTTP request is
issued in either case. -/
def processFaceSwapComponent (st : FSState) :
    FSState × List FaceSwapCall × List Toast :=
  match st.uploadedImage with
  | none => (st, [], [])
  | some img =>
    ({ st with processedImage := some img }, [],
     [Toast.success ("Face swap completed!")])

end Astro

namespace Astro

/-- The padding loop reaches length exactly 4 whenever it starts at
length at most 4 with enough fuel. -/
theorem padTimeline_length (n : Nat) (acc : List String)
    (h4 : acc.length ≤ 4) (hfuel : 4 ≤ acc.length + n) :
    (padTimeline n acc).length = 4 := by
  induction n generalizing acc with
  | zero => simp [padTimeline]; omega
  | succ n ih =>
    by_cases h : acc.length < 4
    · rw [padTimeline, if_pos h]
      apply ih
      · simp; omega
      · simp; omega
    · rw [padTimeline, if_neg h]
      omega

/-- A successful timeline response is always normalized to exactly 4
entries. -/
theorem normalizeTimeline_length (data : Option (List String)) :
    (normalizeTimeline data).length = 4 := by
  unfold normalizeTimeline
  apply padTimeline_length
  · exact List.length_take_le 4 _
  · have := List.length_take_le 4 (((data.getD []).filter (fun s => s != "")))
    omega

/-- The suggestion padding loop never fires on a list already at
length 4 or more. -/
theorem padSuggestions_eq_self (n : Nat) (acc : List String)
    (h : ¬ acc.length < 4) : padSuggestions n acc = acc := by
  cases n with
  | zero => rfl
  | succ n => rw [padSuggestions, if_neg h]

/-- C1: for every completed questionnaire submission (step at least
`totalSteps - 1`, so the handler does not early-return), the request sent
to the similarity-search endpoint has `top_k = 3` and carries the profile
built from the form answers: `name` is the firstName answer, `education`
is the one-element list with the education answer as institution, and
`occupations` / `interests` / `languages` come from the interests /
hobbies / languages answers by splitting on commas, trimming, and
dropping empty pieces; a skipped (or blank) selfie is sent as null. -/
theorem c1_profile_built (step : Nat) (d : FormData)
    (fetch : Except Unit ApiResponse) (h : totalSteps - 1 ≤ step) :
    (onSubmit step d fetch).requestSent
      = some { user_profile := buildUserProfile d, top_k := 3 }
    ∧ (buildUserProfile d).name = d.firstName
    ∧ (buildUserProfile d).education = [{ institution := d.education }]
    ∧ (buildUserProfile d).occupations
        = ((jsSplitComma d.interests).map jsTrim).filter (fun t => t != "")
    ∧ (buildUserProfile d).interests
        = ((jsSplitComma d.hobbies).map jsTrim).filter (fun t => t != "")
    ∧ (buildUserProfile d).languages
        = ((jsSplitComma d.languages).map jsTrim).filter (fun t => t != "")
    ∧ (∀ x ∈ (buildUserProfile d).occupations, x ≠ "")
    ∧ (d.selfie = none → (buildUserProfile d).selfie = none)
    ∧ (d.selfie = some "" → (buildUserProfile d).selfie = none) := by
  have hn : ¬ step < totalSteps - 1 := by omega
  refine ⟨?_, rfl, rfl, rfl, rfl, rfl, ?_, ?_, ?_⟩
  · unfold onSubmit
    rw [if_neg hn]
    cases fetch with
    | error e => rfl
    | ok resp =>
      by_cases hok : resp.ok
      · simp [hok, buildMatchRequest]
      · simp [hok, buildMatchRequest]
  · intro x hx
    have := List.of_mem_filter hx
    simpa using this
  · intro hs
    simp [buildUserProfile, jsOrNull, hs]
  · intro hs
    simp [buildUserProfile, jsOrNull, hs]

/-- C2: for every questionnaire submission whose similarity-search call
fails (thrown fetch or non-ok response), the handler shows exactly the
error toast, writes nothing to the session store, does not navigate, and
leaves `isSubmitting` reset to false. -/
theorem c2_submit_failure (step : Nat) (d : FormData)
    (fetch : Except Unit ApiResponse) (h : totalSteps - 1 ≤ step)
    (hfail : fetchFailed fetch = true) :
    (onSubmit step d fetch).toasts = [Toast.error submitErrorMsg]
    ∧ (onSubmit step d fetch).storageWrites = []
    ∧ (onSubmit step d fetch).navigatedTo = none
    ∧ (onSubmit step d fetch).isSubmitting = false := by
  have hn : ¬ step < totalSteps - 1 := by omega
  cases fetch with
  | error e => unfold onSubmit; rw [if_neg hn]; exact ⟨rfl, rfl, rfl, rfl⟩
  | ok resp =>
    have hko : resp.ok = false := by
      simpa [fetchFailed] using hfail
    unfold onSubmit
    rw [if_neg hn]
    simp [hko]

/-- Witness for C1 at a concrete submission. -/
theorem c1_profile_built_witness :
    totalSteps - 1 ≤ 6
    ∧ (onSubmit 6 sampleForm (.ok sampleOkResponse)).requestSent
      = some { user_profile := buildUserProfile sampleForm, top_k := 3 } :=
  ⟨by decide,
   (c1_profile_built 6 sampleForm (.ok sampleOkResponse) (by decide)).1⟩

/-- Witness for C2: a concrete submission whose fetch rejects. -/
theorem c2_submit_failure_witness :
    totalSteps - 1 ≤ 6 ∧ fetchFailed (.error ()) = true
    ∧ (onSubmit 6 sampleForm (.error ())).toasts = [Toast.error submitErrorMsg]
    ∧ (onSubmit 6 sampleForm (.error ())).storageWrites = [] :=
  ⟨by decide, by decide,
   (c2_submit_failure 6 sampleForm (.error ()) (by decide) (by decide)).1,
   (c2_submit_failure 6 sampleForm (.error ()) (by decide) (by decide)).2.1⟩

/-- A concrete astronaut match with no optional data, used in
counterexamples and witnesses. -/
def sampleAstronaut : Astronaut :=
  { profileName := none, name := none, nationality := none,
    missionCount := none, missionDuration := none, role := none,
    biography := none, careerTimeline := none }

/-- C3 counterexample: the biography generator's handling of a failed
(non-ok) HTTP response shows no toast at all and silently substitutes a
fallback biography — contradicting the claim that every failed HTTP
operation shows a toast and never substitutes fallback content. -/
theorem c3_counterexample :
    (biographyStep sampleAstronaut (.ok ⟨false, ""⟩)).2 = []
    ∧ (biographyStep sampleAstronaut (.ok ⟨false, ""⟩)).1.biography
        = some (fallbackBiography sampleAstronaut) := ⟨rfl, rfl⟩

/-- C3 amended: failed similarity-search calls in the questionnaire
submit path show an error toast and perform no other recovery, but the
results page's biography and career-timeline generators handle failed
HTTP calls silently — no toast — by substituting fixed fallback content
(a computed fallback biography; a fixed 4-entry timeline). -/
theorem c3_amended (step : Nat) (d : FormData)
    (fetch : Except Unit ApiResponse) (h : totalSteps - 1 ≤ step)
    (hfail : fetchFailed fetch = true) :
    (onSubmit step d fetch).toasts = [Toast.error submitErrorMsg]
    ∧ (onSubmit step d fetch).storageWrites = []
    ∧ (onSubmit step d fetch).navigatedTo = none
    ∧ (∀ (a : Astronaut) (bio : String),
        (biographyStep a (.ok ⟨false, bio⟩)).2 = []
        ∧ (biographyStep a (.ok ⟨false, bio⟩)).1.biography
            = some (fallbackBiography a))
    ∧ (∀ a : Astronaut,
        (biographyStep a (.error ())).2 = []
        ∧ (biographyStep a (.error ())).1.biography = some thrownBiography)
    ∧ (∀ (a : Astronaut) (tl : Option (List String)),
        (timelineStep a (.ok ⟨false, tl⟩)).2 = []
        ∧ (timelineStep a (.ok ⟨false, tl⟩)).1.careerTimeline
            = some timelineFallbacks)
    ∧ (∀ a : Astronaut,
        (timelineStep a (.error ())).2 = []
        ∧ (timelineStep a (.error ())).1.careerTimeline = some thrownTimeline) := by
  have hsub := c2_submit_failure step d fetch h hfail
  refine ⟨hsub.1, hsub.2.1, hsub.2.2.1, ?_, ?_, ?_, ?_⟩
  · intro a bio; exact ⟨rfl, rfl⟩
  · intro a; exact ⟨rfl, rfl⟩
  · intro a tl; exact ⟨rfl, rfl⟩
  · intro a; exact ⟨rfl, rfl⟩

/-- Witness for C3 amended at a concrete failed submission. -/
theorem c3_amended_witness :
    totalSteps - 1 ≤ 6 ∧ fetchFailed (.error ()) = true
    ∧ (onSubmit 6 sampleForm (.error ())).toasts = [Toast.error submitErrorMsg] :=
  ⟨by decide, by decide,
   (c3_amended 6 sampleForm (.error ()) (by decide) (by decide)).1⟩

/-- C4 counterexample: the questionnaire submit writes the
`astronautMatches` and `userProfile` keys into the browser session store,
and the results page's load reads exactly that state — its outcome
differs between the store left by the submit and an empty store — so the
application is not free of shared mutable state between operations. -/
theorem c4_counterexample :
    (onSubmit 6 sampleForm (.ok sampleOkResponse)).storageWrites ≠ []
    ∧ resultsLoad ((onSubmit 6 sampleForm (.ok sampleOkResponse)).storageWrites)
        = .loaded ("RESULTJSON") (buildUserProfile sampleForm)
    ∧ resultsLoad [] = .noResults
    ∧ resultsLoad ((onSubmit 6 sampleForm (.ok sampleOkResponse)).storageWrites)
        ≠ resultsLoad [] := by
  have hw : (onSubmit 6 sampleForm (.ok sampleOkResponse)).storageWrites
      = [("astronautMatches", SVal.json ("RESULTJSON")),
         ("userProfile", SVal.profileVal (buildUserProfile sampleForm))] := by
    simp [onSubmit, totalSteps, sampleOkResponse]
  refine ⟨?_, ?_, ?_, ?_⟩
  · rw [hw]; simp
  · rw [hw]; simp [resultsLoad, storeLookup, List.find?]
  · rfl
  · rw [hw]; simp [resultsLoad, storeLookup, List.find?]

/-- C4 amended: every operation is a single HTTP request, but the
questionnaire submit communicates with the results page through the
browser session store: a successful submit writes `astronautMatches`
(the response body) and `userProfile` (the built profile), and the
results page's load reads those keys, proceeding with them when present
and rendering the no-results screen when absent. -/
theorem c4_amended (d : FormData) (body : String) (p : UserProfile) :
    (onSubmit 6 d (.ok ⟨true, body⟩)).storageWrites
      = [("astronautMatches", SVal.json body),
         ("userProfile", SVal.profileVal (buildUserProfile d))]
    ∧ resultsLoad [("astronautMatches", SVal.json body),
         ("userProfile", SVal.profileVal p)] = .loaded body p
    ∧ resultsLoad [] = .noResults := by
  refine ⟨?_, ?_, rfl⟩
  · simp [onSubmit, totalSteps]
  · simp [resultsLoad, storeLookup, List.find?]

/-- A concrete component state with an uploaded photo. -/
def sampleComponentState : FSState :=
  { uploadedImage := some ("selfie-img"), processedImage := none }

/-- C5 counterexample: the standalone FaceSwap component's
`processFaceSwap`, invoked with an uploaded image, issues no HTTP request
at all and uses the uploaded image itself as the composited result —
contradicting the claim that every invocation issues an HTTP request and
uses the service's response. -/
theorem c5_counterexample :
    (processFaceSwapComponent sampleComponentState).2.1 = []
    ∧ (processFaceSwapComponent sampleComponentState).1.processedImage
        = some ("selfie-img") := ⟨rfl, rfl⟩

/-- C5 amended: the results page's face swap is a thin HTTP call — for
every non-empty captured selfie it issues exactly one request carrying
that selfie and uses the response's `astronaut_image` as the result
(null on failure) — while the standalone FaceSwap component's demo stub
issues no request and uses the uploaded image itself as the result. -/
theorem c5_amended (s : String) (api : Except Unit FaceSwapResponse)
    (h : s ≠ "") :
    (processFaceSwapResults s api).2 = [{ selfie := s }]
    ∧ (∀ img, api = .ok ⟨true, img⟩ → (processFaceSwapResults s api).1 = img)
    ∧ (∀ img, api = .ok ⟨false, img⟩ → (processFaceSwapResults s api).1 = none)
    ∧ (api = .error () → (processFaceSwapResults s api).1 = none)
    ∧ (∀ (st : FSState) (img : String), st.uploadedImage = some img →
        processFaceSwapComponent st
          = ({ st with processedImage := some img }, [],
             [Toast.success ("Face swap completed!")])) := by
  refine ⟨?_, ?_, ?_, ?_, ?_⟩
  · unfold processFaceSwapResults
    rw [if_neg h]
    cases api with
    | error e => rfl
    | ok r =>
      by_cases hok : r.ok
      · simp [hok]
      · simp [hok]
  · intro img hapi
    subst hapi
    unfold processFaceSwapResults
    rw [if_neg h]
    rfl
  · intro img hapi
    subst hapi
    unfold processFaceSwapResults
    rw [if_neg h]
    rfl
  · intro hapi
    subst hapi
    unfold processFaceSwapResults
    rw [if_neg h]
  · intro st img hst
    unfold processFaceSwapComponent
    rw [hst]

/-- Witness for C5 amended at a concrete selfie and response. -/
theorem c5_amended_witness :
    ("selfie-img" : String) ≠ ""
    ∧ (processFaceSwapResults ("selfie-img")
        (.ok ⟨true, some ("swapped")⟩)).2 = [{ selfie := "selfie-img" }] :=
  ⟨by decide,
   (c5_amended ("selfie-img") (.ok ⟨true, some ("swapped")⟩) (by decide)).1⟩

/-- C6 counterexample: calling `nextStep` at step 7 (the total) leaves
the counter unchanged but shows no toast, and the step-7 Skip button
advances the counter to 8 — above the claimed upper bound of 7. -/
theorem c6_counterexample :
    nextStep 7 sampleForm = (7, []) ∧ skipSelfie 7 = 8 := ⟨rfl, rfl⟩

/-- C6 amended: under `nextStep`, `prevStep` and the submit handler the
step counter stays between 1 and 7: `nextStep` below 7 advances by one
when the current required field is non-blank after trimming and
otherwise shows an error toast leaving the counter unchanged, while at 7
it does nothing and shows nothing; `prevStep` decrements by one exactly
above 1; the submit handler has no effect below `totalSteps - 1`. The
step-7 Skip button, however, sets the counter to 8, escaping the bound. -/
theorem c6_amended (step : Nat) (d : FormData)
    (h1 : 1 ≤ step) (h7 : step ≤ 7) :
    (1 ≤ (nextStep step d).1 ∧ (nextStep step d).1 ≤ 7)
    ∧ (step < 7 → stepFieldValid step d = true → nextStep step d = (step + 1, []))
    ∧ (step < 7 → stepFieldValid step d = false →
        nextStep step d = (step, [Toast.error requiredFieldMsg]))
    ∧ (step = 7 → nextStep step d = (step, []))
    ∧ (1 ≤ prevStep step ∧ prevStep step ≤ 7)
    ∧ (1 < step → prevStep step = step - 1)
    ∧ (prevStep 1 = 1)
    ∧ (step < totalSteps - 1 → ∀ f, onSubmit step d f
        = { requestSent := none, storageWrites := [], navigatedTo := none,
            toasts := [], isSubmitting := false })
    ∧ skipSelfie 7 = 8 := by
  have hts : totalSteps = 7 := rfl
  refine ⟨?_, ?_, ?_, ?_, ?_, ?_, rfl, ?_, rfl⟩
  · unfold nextStep
    rw [hts]
    by_cases hlt : step < 7
    · by_cases hv : stepFieldValid step d
      · simp [hlt, hv]; omega
      · simp [hlt, hv]; omega
    · simp [hlt]; omega
  · intro hlt hv
    unfold nextStep
    rw [hts, if_pos hlt, if_pos hv]
  · intro hlt hv
    unfold nextStep
    rw [hts, if_pos hlt, hv]
    rfl
  · intro heq
    unfold nextStep
    rw [hts, heq]
    rfl
  · unfold prevStep
    by_cases hgt : 1 < step
    · simp [hgt]; omega
    · simp [hgt]; omega
  · intro hgt
    unfold prevStep
    rw [if_pos hgt]
  · intro hlt f
    unfold onSubmit
    rw [if_pos hlt]

/-- Witness for C6 amended at concrete steps. -/
theorem c6_amended_witness :
    1 ≤ 6 ∧ 6 ≤ 7 ∧ stepFieldValid 6 sampleForm = true
    ∧ nextStep 6 sampleForm = (7, []) :=
  ⟨by decide, by decide, by decide,
   (c6_amended 6 sampleForm (by decide) (by decide)).2.1 (by decide) (by decide)⟩

/-- C7: the results experience has exactly three slides and the current
index stays between 0 and 2: `nextSlide` increments by one exactly below
the last slide, `prevSlide` decrements by one exactly above 0, and the
Start Over action resets the index to 0. -/
theorem c7_slide_deck (i : Nat) (h : i ≤ 2) :
    slides.length = 3
    ∧ nextSlide i ≤ 2 ∧ prevSlide i ≤ 2
    ∧ (i < 2 → nextSlide i = i + 1) ∧ (2 ≤ i → nextSlide i = i)
    ∧ (0 < i → prevSlide i = i - 1) ∧ prevSlide 0 = 0
    ∧ startOver = 0 := by
  refine ⟨rfl, ?_, ?_, ?_, ?_, ?_, rfl, rfl⟩
  · unfold nextSlide
    by_cases hlt : i < slides.length - 1
    · rw [if_pos hlt]; simp [slides] at hlt; omega
    · rw [if_neg hlt]; omega
  · unfold prevSlide
    by_cases hgt : 0 < i
    · rw [if_pos hgt]; omega
    · rw [if_neg hgt]; omega
  · intro hlt
    unfold nextSlide
    rw [if_pos (by simpa [slides] using hlt)]
  · intro hge
    unfold nextSlide
    rw [if_neg (by simp [slides]; omega)]
  · intro hgt
    unfold prevSlide
    rw [if_pos hgt]

/-- Witness for C7 at slide 1. -/
theorem c7_slide_deck_witness :
    (1 : Nat) ≤ 2 ∧ nextSlide 1 ≤ 2 :=
  ⟨by decide, (c7_slide_deck 1 (by decide)).2.1⟩

/-- C8: after `generateCareerTimelines`, every astronaut's timeline has
exactly 4 entries, whatever its timeline fetch returned: a successful
response is filtered of falsy entries, truncated to 4 and padded to 4
with the fixed fallback strings; a non-ok response gets the fixed
fallback timeline; a thrown fetch gets the (different) fixed fallback. -/
theorem c8_timeline_normalized
    (xs : List (Astronaut × Except Unit TimelineResponse))
    (a : Astronaut) (api : Except Unit TimelineResponse)
    (h : (a, api) ∈ xs) :
    (timelineStep a api).1 ∈ generateCareerTimelines xs
    ∧ (∃ t, (timelineStep a api).1.careerTimeline = some t ∧ t.length = 4)
    ∧ (∀ tl, api = .ok ⟨true, tl⟩ →
        (timelineStep a api).1.careerTimeline
          = some (padTimeline 4 (((tl.getD []).filter (fun s => s != "")).take 4)))
    ∧ (∀ tl, api = .ok ⟨false, tl⟩ →
        (timelineStep a api).1.careerTimeline = some timelineFallbacks)
    ∧ (api = .error () →
        (timelineStep a api).1.careerTimeline = some thrownTimeline) := by
  refine ⟨?_, ?_, ?_, ?_, ?_⟩
  · exact List.mem_map_of_mem (fun p => (timelineStep p.1 p.2).1) h
  · cases api with
    | error e => exact ⟨thrownTimeline, rfl, by decide⟩
    | ok r =>
      by_cases hok : r.ok
      · exact ⟨normalizeTimeline r.timeline, by simp [timelineStep, hok],
          normalizeTimeline_length r.timeline⟩
      · exact ⟨timelineFallbacks, by simp [timelineStep, hok], by decide⟩
  · intro tl hapi
    subst hapi
    rfl
  · intro tl hapi
    subst hapi
    rfl
  · intro hapi
    subst hapi
    rfl

/-- Witness for C8 at a concrete match list and response. -/
theorem c8_timeline_normalized_witness :
    (sampleAstronaut, (Except.error () : Except Unit TimelineResponse))
        ∈ [(sampleAstronaut, (Except.error () : Except Unit TimelineResponse))]
    ∧ (∃ t, (timelineStep sampleAstronaut (.error ())).1.careerTimeline
        = some t ∧ t.length = 4) :=
  ⟨by simp,
   (c8_timeline_normalized [(sampleAstronaut, .error ())] sampleAstronaut
      (.error ()) (by simp)).2.1⟩

/-- C9: `generateUserCareerSuggestions` always returns exactly 4
suggestions: the interest-specific pairs (Engineering / Medicine /
Physics, in the cased variants of the source) come first, then the four
defaults are appended, and the list is truncated to its first 4. -/
theorem c9_suggestions_length (p : UserProfile) :
    generateUserCareerSuggestions p
      = ((engineeringPart p.interests ++ medicinePart p.interests
          ++ physicsPart p.interests) ++ defaultSuggestions).take 4
    ∧ (generateUserCareerSuggestions p).length = 4 := by
  have hbase : 4 ≤ (((engineeringPart p.interests ++ medicinePart p.interests)
      ++ physicsPart p.interests) ++ defaultSuggestions).length := by
    simp [defaultSuggestions]
    omega
  have htake : ((((engineeringPart p.interests ++ medicinePart p.interests)
      ++ physicsPart p.interests) ++ defaultSuggestions).take 4).length = 4 := by
    rw [List.length_take]
    omega
  have hpad : generateUserCareerSuggestions p
      = (((engineeringPart p.interests ++ medicinePart p.interests)
          ++ physicsPart p.interests) ++ defaultSuggestions).take 4 := by
    unfold generateUserCareerSuggestions
    exact padSuggestions_eq_self 4 _ (by omega)
  exact ⟨hpad, by rw [hpad]; exact htake⟩

/-- C10: the FaceSwap component's upload handler accepts a file only when
its MIME type starts with `image/` and its size is at most 5 MB; any
violating file produces an error toast and leaves both image states
unchanged. -/
theorem c10_upload_guard (f : ImgFile) (st : FSState)
    (h : f.mimeType.startsWith ("image/") = false ∨ 5 * 1024 * 1024 < f.size) :
    (handleImageUpload (some f) st).1 = st
    ∧ (∃ m, (handleImageUpload (some f) st).2 = [Toast.error m]) := by
  by_cases hm : f.mimeType.startsWith ("image/") = false
  · simp only [handleImageUpload]
    rw [if_pos hm]
    exact ⟨rfl, "Please upload an image file", rfl⟩
  · have hsz : 5 * 1024 * 1024 < f.size := by
      rcases h with h | h
      · exact absurd h hm
      · exact h
    simp only [handleImageUpload]
    rw [if_neg hm, if_pos hsz]
    exact ⟨rfl, "Image size must be less than 5MB", rfl⟩

/-- Witness for C10 at a concrete oversized image file. -/
theorem c10_upload_guard_witness :
    ((("image/png" : String).startsWith ("image/") = false)
      ∨ 5 * 1024 * 1024 < (6 * 1024 * 1024 : Nat))
    ∧ (handleImageUpload
        (some { mimeType := "image/png", size := 6 * 1024 * 1024, content := "c" })
        { uploadedImage := none, processedImage := none }).1
      = { uploadedImage := none, processedImage := none } :=
  ⟨Or.inr (by norm_num),
   (c10_upload_guard
      { mimeType := "image/png", size := 6 * 1024 * 1024, content := "c" }
      { uploadedImage := none, processedImage := none }
      (Or.inr (by norm_num))).1⟩

end Astro
